import Mathlib

/-!
Shallow embedding of the request-dispatch core of the pathfinder node:
the RPC context and method-registration adapter from
`crates/pathfinder/src/rpc/v02.rs`, and the polling L1 sync producer from
`crates/pathfinder/src/state/sync/l1.rs`.

Machine effects are made explicit: the metrics registry is a list of
registration operations, handler side effects are threaded through an
explicit state, and the async polling loop is interpreted with fuel,
producing a trace of events (sleeps, upstream queries, channel sends,
error logs) plus an outcome.
-/

namespace Pathfinder

/-! ## RPC context (`rpc/v02.rs`, `struct RpcContext`)

The concrete Rust field types (`Storage`, `PendingData`, `Arc<SyncState>`,
`Chain`) live outside this core; they are type parameters here.  `Arc`
cloning is shared-ownership duplication, which for values is the identity. -/

structure RpcContext (S PD SS C : Type) where
  storage : S
  pending_data : Option PD
  sync_status : SS
  chain : C
  deriving DecidableEq, Repr

variable {S PD SS C : Type}

/-- `RpcContext::new`: constructs the context with `pending_data: None`. -/
def RpcContext.new (storage : S) (sync_status : SS) (chain : C) :
    RpcContext S PD SS C :=
  { storage := storage, sync_status := sync_status, chain := chain,
    pending_data := none }

/-- `RpcContext::with_pending_data`: functional update setting
`pending_data: Some(pending_data)` and keeping the remaining fields
(`..self`). -/
def RpcContext.with_pending_data (self : RpcContext S PD SS C)
    (pending_data : PD) : RpcContext S PD SS C :=
  { self with pending_data := some pending_data }

/-- The contexts reachable from a given one through the public constructors:
the only operation that produces a new context from an existing one in
`v02.rs` is `with_pending_data` (plus cheap `Clone`, the identity here). -/
inductive RpcContext.Reaches :
    RpcContext S PD SS C → RpcContext S PD SS C → Prop where
  | refl (c : RpcContext S PD SS C) : RpcContext.Reaches c c
  | step (a b : RpcContext S PD SS C) (pd : PD) :
      RpcContext.Reaches a b → RpcContext.Reaches a (b.with_pending_data pd)

/-! ## Metrics, transport errors, callback effect state -/

/-- An operation against the global metrics registry.  `register_method`
and `register_method_with_no_input` each perform exactly one
`metrics::register_counter!("rpc_method_calls_total", "method" => name)`. -/
inductive MetricsOp where
  | registerCounter (counter : String) (method : String)
  deriving DecidableEq, Repr

/-- The transport-level error type (`jsonrpsee::core::Error`) as it is
produced by the dispatched callbacks: either the parameter-decode failure
raised by `params.parse::<Input>()?` (an invalid-params parse error carrying
the decode message), or the image of a handler error converted through
`RpcError` (`jsonrpsee::core::Error::from(rpc_err)`).  `R` is the `RpcError`
type, abstract here. -/
inductive JsonRpseeError (R : Type) where
  | invalidParams (msg : String)
  | fromRpc (err : R)
  deriving DecidableEq, Repr

/-- Recognizes the transport-level parse error. -/
def isParseError {R Output : Type}
    (r : Except (JsonRpseeError R) Output) : Bool :=
  match r with
  | .error (.invalidParams _) => true
  | _ => false

/-- The mutable world a dispatched callback executes in: the handler's own
side-effect state `σ` (e.g. a test counter incremented on invocation) and
the global metrics registry. -/
structure CallWorld (σ : Type) where
  handlerState : σ
  metricsOps : List MetricsOp

variable {P Input Output E R σ : Type}

/-- The callback built inside `register_method` (`v02.rs` lines 77-88):
parse the raw params into `Input` (`?` returns the parse error without
touching the handler), clone the context out of the `Arc`, invoke the
handler, and map a handler error through `Into<RpcError>` and then into the
transport error.  `parseInput` stands for `Params::parse::<Input>`;
`intoRpc` for the `Error: Into<RpcError>` bound. -/
def method_callback (parseInput : P → Except String Input) (intoRpc : E → R)
    (method : RpcContext S PD SS C → Input → σ → Except E Output × σ)
    (params : P) (context : RpcContext S PD SS C) (w : CallWorld σ) :
    Except (JsonRpseeError R) Output × CallWorld σ :=
  match parseInput params with
  | .error msg => (.error (.invalidParams msg), w)
  | .ok input =>
    match method context input w.handlerState with
    | (.ok output, s) => (.ok output, { w with handlerState := s })
    | (.error err, s) =>
      (.error (.fromRpc (intoRpc err)), { w with handlerState := s })

/-- The callback built inside `register_method_with_no_input` (`v02.rs`
lines 120-130): the raw params are bound to `_params` and never inspected;
the handler is invoked directly and errors are mapped exactly as in
`method_callback`. -/
def no_input_callback (intoRpc : E → R)
    (method : RpcContext S PD SS C → σ → Except E Output × σ)
    (_params : P) (context : RpcContext S PD SS C) (w : CallWorld σ) :
    Except (JsonRpseeError R) Output × CallWorld σ :=
  match method context w.handlerState with
  | (.ok output, s) => (.ok output, { w with handlerState := s })
  | (.error err, s) =>
    (.error (.fromRpc (intoRpc err)), { w with handlerState := s })

/-! ## Routing table and registration (`jsonrpsee::RpcModule` + registrar) -/

/-- The transport callback shape stored in the routing table. -/
abbrev Callback (P R Output σ S PD SS C : Type) : Type :=
  P → RpcContext S PD SS C → CallWorld σ →
    Except (JsonRpseeError R) Output × CallWorld σ

/-- The routing table: method name to bound callback, in registration
order. -/
abbrev RpcModule (Cb : Type) : Type := List (String × Cb)

/-- Routing lookup: the callback bound to `name`, if any. -/
def RpcModule.lookup {Cb : Type} (module : RpcModule Cb) (name : String) :
    Option Cb :=
  match module with
  | [] => none
  | (n, cb) :: rest =>
    if n = name then some cb else RpcModule.lookup rest name

/-- The error surfaced by the routing table on a duplicate name
(`jsonrpsee`'s `MethodAlreadyRegistered`, wrapped by `anyhow`). -/
inductive RegisterMethodError where
  | alreadyRegistered (name : String)
  deriving DecidableEq, Repr

/-- `RpcModule::register_async_method` of the `jsonrpsee` transport, the
routing table used by the registrar: rejects a name that is already bound,
otherwise appends the binding. -/
def register_async_method {Cb : Type} (module : RpcModule Cb)
    (method_name : String) (callback : Cb) :
    Except RegisterMethodError (RpcModule Cb) :=
  if module.any fun p => p.1 == method_name then
    .error (.alreadyRegistered method_name)
  else
    .ok (module ++ [(method_name, callback)])

/-- `register_method` (`v02.rs` lines 59-95): first registers the
per-method call counter in the global metrics registry, then builds the
parsing/err-mapping callback and binds it in the routing table; a binding
conflict is returned as an error (with the metrics registration already
performed).  Returns (result, resulting routing table, resulting metrics
registry). -/
def register_method (parseInput : P → Except String Input) (intoRpc : E → R)
    (module : RpcModule (Callback P R Output σ S PD SS C))
    (metrics : List MetricsOp) (method_name : String)
    (method : RpcContext S PD SS C → Input → σ → Except E Output × σ) :
    Except RegisterMethodError Unit ×
      RpcModule (Callback P R Output σ S PD SS C) × List MetricsOp :=
  let metrics :=
    metrics ++ [MetricsOp.registerCounter "rpc_method_calls_total" method_name]
  match register_async_method module method_name
      (method_callback parseInput intoRpc method) with
  | .ok module' => (.ok (), module', metrics)
  | .error e => (.error e, module, metrics)

/-- `register_method_with_no_input` (`v02.rs` lines 104-137): identical
registrar, but binds the no-input callback (no parameter decoding). -/
def register_method_with_no_input (intoRpc : E → R)
    (module : RpcModule (Callback P R Output σ S PD SS C))
    (metrics : List MetricsOp) (method_name : String)
    (method : RpcContext S PD SS C → σ → Except E Output × σ) :
    Except RegisterMethodError Unit ×
      RpcModule (Callback P R Output σ S PD SS C) × List MetricsOp :=
  let metrics :=
    metrics ++ [MetricsOp.registerCounter "rpc_method_calls_total" method_name]
  match register_async_method module method_name
      (no_input_callback intoRpc method) with
  | .ok module' => (.ok (), module', metrics)
  | .error e => (.error e, module, metrics)

/-! ## Polling sync producer (`state/sync/l1.rs`, `pub async fn sync`)

The async loop is interpreted with fuel (one unit per loop iteration) over
a trace of events.  `client k` is the result of the `k`-th
`get_starknet_state()` call; `sendClosed n` tells whether the receiving end
of the channel has been dropped by the time of the `n`-th `send`
(`Sender::send` fails exactly when the receiver is gone, and the `?`
operator propagates that failure out of `sync`).  Durations are abstract
time units (`Nat`). -/

/-- Observable events of one run of the sync producer. -/
inductive SyncEvent (ε υ : Type) where
  | sleep (duration : Nat)
  | query (k : Nat) (result : Except ε υ)
  | sent (update : υ)
  | logError (k : Nat)

/-- How a (fuel-bounded) run of `sync` ends.  `running` means the fuel ran
out with the loop still going; `sendError` is the propagated channel-send
failure; `ok` is the `Ok(())` success value of the declared
`anyhow::Result<()>` type. -/
inductive SyncOutcome where
  | running
  | sendError
  | ok
  deriving DecidableEq, Repr

variable {ε υ : Type}

/-- The `loop` body of `sync` (`l1.rs` lines 13-20), run for `fuel`
iterations: sleep for the poll interval, query upstream; on `Ok` send to the
channel (returning the send failure if the receiver is gone, via `?`); on
`Err` log and continue.  `q` counts upstream queries so far, `snd` counts
channel sends so far. -/
def syncLoop (client : Nat → Except ε υ) (sendClosed : Nat → Bool)
    (poll_interval : Nat) :
    Nat → Nat → Nat → List (SyncEvent ε υ) × SyncOutcome
  | 0, _, _ => ([], .running)
  | fuel + 1, q, snd =>
    match client q with
    | .ok state =>
      if sendClosed snd then
        ([.sleep poll_interval, .query q (.ok state)], .sendError)
      else
        let rest := syncLoop client sendClosed poll_interval fuel (q + 1)
          (snd + 1)
        (.sleep poll_interval :: .query q (.ok state) :: .sent state ::
          rest.1, rest.2)
    | .error e =>
      let rest := syncLoop client sendClosed poll_interval fuel (q + 1) snd
      (.sleep poll_interval :: .query q (.error e) :: .logError q :: rest.1,
        rest.2)

/-- `sync` (`l1.rs` lines 5-21): sleep for the start delay once, then run
the polling loop. -/
def sync (client : Nat → Except ε υ) (sendClosed : Nat → Bool)
    (start_delay poll_interval fuel : Nat) :
    List (SyncEvent ε υ) × SyncOutcome :=
  let rest := syncLoop client sendClosed poll_interval fuel 0 0
  (.sleep start_delay :: rest.1, rest.2)

/-- The values forwarded to the channel, in order. -/
def sentValues : List (SyncEvent ε υ) → List υ
  | [] => []
  | .sent u :: tl => u :: sentValues tl
  | _ :: tl => sentValues tl

/-- Time elapsed (total slept duration) before the first value is
forwarded to the channel. -/
def sleepTimeBefore : List (SyncEvent ε υ) → Nat
  | [] => 0
  | .sent _ :: _ => 0
  | .sleep d :: tl => d + sleepTimeBefore tl
  | _ :: tl => sleepTimeBefore tl

/-- The number of upstream queries in a trace. -/
def queryCount : List (SyncEvent ε υ) → Nat
  | [] => 0
  | .query _ _ :: tl => queryCount tl + 1
  | _ :: tl => queryCount tl

/-! ## Test fixtures (concrete instantiations used by closed witnesses) -/

/-- A concrete context over `Nat` component types. -/
def testCtx : RpcContext Nat Nat Nat Nat := RpcContext.new 7 8 9

/-- A decode function that rejects every raw-parameter blob. -/
def failingDecode : Nat → Except String Nat := fun _ => .error "bad params"

/-- A decode function that accepts every raw-parameter blob. -/
def okDecode : Nat → Except String Nat := fun p => .ok p

/-- A side-effecting test handler that increments a counter on every
invocation and succeeds. -/
def countingHandler :
    RpcContext Nat Nat Nat Nat → Nat → Nat → Except Nat Nat × Nat :=
  fun _ input s => (.ok input, s + 1)

/-- A test handler that always fails with a fixed domain error. -/
def failingHandler :
    RpcContext Nat Nat Nat Nat → Nat → Nat → Except Nat Nat × Nat :=
  fun _ _ s => (.error 3, s)

/-- A side-effecting zero-input test handler that increments a counter on
every invocation. -/
def countingNoInput : RpcContext Nat Nat Nat Nat → Nat → Except Nat Nat × Nat :=
  fun _ s => (.ok 1, s + 1)

/-- A concrete bound callback over `Nat` instantiations. -/
def testCallback : Callback Nat Nat Nat Nat Nat Nat Nat Nat :=
  method_callback okDecode (fun e => e) countingHandler

/-- A routing table with one binding. -/
def testModule : RpcModule (Callback Nat Nat Nat Nat Nat Nat Nat Nat) :=
  [("starknet_call", testCallback)]

/-! ## Helper lemmas about the routing table and registration -/

theorem RpcModule.lookup_none_any_false {Cb : Type}
    (module : RpcModule Cb) (name : String)
    (h : RpcModule.lookup module name = none) :
    (module.any fun p => p.1 == name) = false := by
  induction module with
  | nil => rfl
  | cons hd tl ih =>
    rcases hd with ⟨n, cb⟩
    by_cases hn : n = name
    · simp [RpcModule.lookup, hn] at h
    · rw [RpcModule.lookup] at h
      simp only [hn, if_false] at h
      simp [List.any_cons, hn, ih h]

theorem RpcModule.lookup_append_same {Cb : Type}
    (module : RpcModule Cb) (name : String) (cb : Cb)
    (h : RpcModule.lookup module name = none) :
    RpcModule.lookup (module ++ [(name, cb)]) name = some cb := by
  induction module with
  | nil => simp [RpcModule.lookup]
  | cons hd tl ih =>
    rcases hd with ⟨n, c⟩
    by_cases hn : n = name
    · simp [RpcModule.lookup, hn] at h
    · rw [RpcModule.lookup] at h
      simp only [hn, if_false] at h
      rw [List.cons_append, RpcModule.lookup]
      simp only [hn, if_false]
      exact ih h

theorem RpcModule.any_append_same {Cb : Type} (module : RpcModule Cb)
    (name : String) (cb : Cb) :
    ((module ++ [(name, cb)]).any fun p => p.1 == name) = true := by
  induction module with
  | nil =>
    simp only [List.nil_append, List.any_cons, List.any_nil, Bool.or_false,
      beq_self_eq_true]
  | cons hd tl ih =>
    simp only [List.cons_append, List.any_cons, ih, Bool.or_true]

theorem register_method_eq_fresh (parseInput : P → Except String Input)
    (intoRpc : E → R) (module : RpcModule (Callback P R Output σ S PD SS C))
    (metrics : List MetricsOp) (name : String)
    (method : RpcContext S PD SS C → Input → σ → Except E Output × σ)
    (h : (module.any fun p => p.1 == name) = false) :
    register_method parseInput intoRpc module metrics name method
      = (.ok (),
         module ++ [(name, method_callback parseInput intoRpc method)],
         metrics ++ [MetricsOp.registerCounter "rpc_method_calls_total" name]) := by
  simp [register_method, register_async_method, h]

theorem register_method_eq_dup (parseInput : P → Except String Input)
    (intoRpc : E → R) (module : RpcModule (Callback P R Output σ S PD SS C))
    (metrics : List MetricsOp) (name : String)
    (method : RpcContext S PD SS C → Input → σ → Except E Output × σ)
    (h : (module.any fun p => p.1 == name) = true) :
    register_method parseInput intoRpc module metrics name method
      = (.error (.alreadyRegistered name), module,
         metrics ++ [MetricsOp.registerCounter "rpc_method_calls_total" name]) := by
  simp [register_method, register_async_method, h]

theorem register_no_input_eq_fresh (intoRpc : E → R)
    (module : RpcModule (Callback P R Output σ S PD SS C))
    (metrics : List MetricsOp) (name : String)
    (method : RpcContext S PD SS C → σ → Except E Output × σ)
    (h : (module.any fun p => p.1 == name) = false) :
    register_method_with_no_input intoRpc module metrics name method
      = (.ok (), module ++ [(name, no_input_callback intoRpc method)],
         metrics ++ [MetricsOp.registerCounter "rpc_method_calls_total" name]) := by
  simp [register_method_with_no_input, register_async_method, h]

theorem register_no_input_eq_dup (intoRpc : E → R)
    (module : RpcModule (Callback P R Output σ S PD SS C))
    (metrics : List MetricsOp) (name : String)
    (method : RpcContext S PD SS C → σ → Except E Output × σ)
    (h : (module.any fun p => p.1 == name) = true) :
    register_method_with_no_input intoRpc module metrics name method
      = (.error (.alreadyRegistered name), module,
         metrics ++ [MetricsOp.registerCounter "rpc_method_calls_total" name]) := by
  simp [register_method_with_no_input, register_async_method, h]

/-! ## Claim theorems -/

/-- Claim C1: for every method built by `register_method`, a raw parameter
blob that fails to decode into the declared `Input` type makes the
dispatched callback return the transport-level parse error, for every
handler (so the result is independent of the handler) and with the
handler's side-effect state untouched (the handler is never invoked). -/
theorem claim_c1_decode_error_skips_handler
    (parseInput : P → Except String Input) (intoRpc : E → R)
    (params : P) (msg : String)
    (hdecode : parseInput params = .error msg) :
    ∀ (method : RpcContext S PD SS C → Input → σ → Except E Output × σ)
      (context : RpcContext S PD SS C) (w : CallWorld σ),
      method_callback parseInput intoRpc method params context w
        = (.error (.invalidParams msg), w) := by
  intro method context w
  unfold method_callback
  rw [hdecode]

/-- Witness for C1: a concrete always-failing decode, with the invocation
counter of a side-effecting test handler left at its initial value. -/
theorem claim_c1_witness :
    failingDecode 0 = .error "bad params" ∧
    method_callback failingDecode (fun e : Nat => e) countingHandler 0 testCtx
        ⟨0, []⟩
      = (.error (.invalidParams "bad params"), ⟨0, []⟩) :=
  ⟨rfl,
    claim_c1_decode_error_skips_handler failingDecode (fun e : Nat => e) 0
      "bad params" rfl countingHandler testCtx ⟨0, []⟩⟩

/-- Claim C4: `RpcContext::new` yields `pending_data = none` with the given
`storage`, `sync_status` and `chain`; `with_pending_data` sets
`pending_data = some pd` and preserves the other three fields; and along
any chain of constructor steps, `chain` never changes and `pending_data`
never reverts from present to absent. -/
theorem claim_c4_context_invariants :
    (∀ (st : S) (ss : SS) (ch : C),
      (RpcContext.new st ss ch : RpcContext S PD SS C).pending_data = none ∧
      (RpcContext.new st ss ch : RpcContext S PD SS C).storage = st ∧
      (RpcContext.new st ss ch : RpcContext S PD SS C).sync_status = ss ∧
      (RpcContext.new st ss ch : RpcContext S PD SS C).chain = ch) ∧
    (∀ (ctx : RpcContext S PD SS C) (pd : PD),
      (ctx.with_pending_data pd).pending_data = some pd ∧
      (ctx.with_pending_data pd).storage = ctx.storage ∧
      (ctx.with_pending_data pd).sync_status = ctx.sync_status ∧
      (ctx.with_pending_data pd).chain = ctx.chain) ∧
    (∀ (a b : RpcContext S PD SS C), RpcContext.Reaches a b →
      b.chain = a.chain ∧
      (a.pending_data.isSome = true → b.pending_data.isSome = true)) := by
  refine ⟨fun st ss ch => ⟨rfl, rfl, rfl, rfl⟩,
    fun ctx pd => ⟨rfl, rfl, rfl, rfl⟩, ?_⟩
  intro a b h
  induction h with
  | refl => exact ⟨rfl, fun h => h⟩
  | step b pd hr ih => exact ⟨ih.1, fun h => rfl⟩

/-- Witness for C4: a concrete constructor chain, with the reachability
hypothesis discharged by an explicit derivation and the pending-present
hypothesis by computation. -/
theorem claim_c4_witness :
    (((RpcContext.new 1 2 3 : RpcContext Nat Nat Nat Nat).with_pending_data
          5).with_pending_data 6).chain
      = ((RpcContext.new 1 2 3 :
          RpcContext Nat Nat Nat Nat).with_pending_data 5).chain ∧
    (((RpcContext.new 1 2 3 : RpcContext Nat Nat Nat Nat).with_pending_data
          5).with_pending_data 6).pending_data.isSome = true := by
  have h := claim_c4_context_invariants.2.2
    ((RpcContext.new 1 2 3 : RpcContext Nat Nat Nat Nat).with_pending_data 5)
    (((RpcContext.new 1 2 3 :
        RpcContext Nat Nat Nat Nat).with_pending_data 5).with_pending_data 6)
    (RpcContext.Reaches.step _ _ 6 (RpcContext.Reaches.refl _))
  exact ⟨h.1, h.2 (by decide)⟩

/-- Claim C5: each registration call appends exactly one counter
registration for the method name to the metrics registry (in both
registrar variants), and the dispatched callbacks perform no metrics
operation: the `metricsOps` component of the world is preserved by every
callback execution. -/
theorem claim_c5_counter_once_per_registration :
    (∀ (parseInput : P → Except String Input) (intoRpc : E → R)
      (module : RpcModule (Callback P R Output σ S PD SS C))
      (metrics : List MetricsOp) (name : String)
      (method : RpcContext S PD SS C → Input → σ → Except E Output × σ),
      (register_method parseInput intoRpc module metrics name method).2.2
        = metrics
          ++ [MetricsOp.registerCounter "rpc_method_calls_total" name]) ∧
    (∀ (intoRpc : E → R)
      (module : RpcModule (Callback P R Output σ S PD SS C))
      (metrics : List MetricsOp) (name : String)
      (method : RpcContext S PD SS C → σ → Except E Output × σ),
      (register_method_with_no_input intoRpc module metrics name
          method).2.2
        = metrics
          ++ [MetricsOp.registerCounter "rpc_method_calls_total" name]) ∧
    (∀ (parseInput : P → Except String Input) (intoRpc : E → R)
      (method : RpcContext S PD SS C → Input → σ → Except E Output × σ)
      (params : P) (context : RpcContext S PD SS C) (w : CallWorld σ),
      (method_callback parseInput intoRpc method params context w).2.metricsOps
        = w.metricsOps) ∧
    (∀ (intoRpc : E → R)
      (method : RpcContext S PD SS C → σ → Except E Output × σ)
      (params : P) (context : RpcContext S PD SS C) (w : CallWorld σ),
      (no_input_callback intoRpc method params context w).2.metricsOps
        = w.metricsOps) := by
  refine ⟨?_, ?_, ?_, ?_⟩
  · intro parseInput intoRpc module metrics name method
    unfold register_method
    cases register_async_method module name
      (method_callback parseInput intoRpc method) <;> rfl
  · intro intoRpc module metrics name method
    unfold register_method_with_no_input
    cases register_async_method module name
      (no_input_callback intoRpc method) <;> rfl
  · intro parseInput intoRpc method params context w
    unfold method_callback
    split
    · rfl
    · split <;> rfl
  · intro intoRpc method params context w
    unfold no_input_callback
    split <;> rfl

/-- Claim C8: the error mapping applied by the dispatched callback is a
pure function of the handler's error value: whenever the handler fails
with error `e`, the transport error is `fromRpc (intoRpc e)`, so two calls
whose handler runs fail with the same `e` produce the same transport
error. -/
theorem claim_c8_error_mapping_deterministic
    (parseInput : P → Except String Input) (intoRpc : E → R)
    (method : RpcContext S PD SS C → Input → σ → Except E Output × σ)
    (p1 p2 : P) (ctx1 ctx2 : RpcContext S PD SS C) (w1 w2 : CallWorld σ)
    (i1 i2 : Input) (e : E) (s1 s2 : σ)
    (hp1 : parseInput p1 = .ok i1)
    (hm1 : method ctx1 i1 w1.handlerState = (.error e, s1))
    (hp2 : parseInput p2 = .ok i2)
    (hm2 : method ctx2 i2 w2.handlerState = (.error e, s2)) :
    (method_callback parseInput intoRpc method p1 ctx1 w1).1
      = .error (.fromRpc (intoRpc e)) ∧
    (method_callback parseInput intoRpc method p2 ctx2 w2).1
      = (method_callback parseInput intoRpc method p1 ctx1 w1).1 := by
  simp [method_callback, hp1, hp2, hm1, hm2]

/-- Witness for C8: two concrete calls with different raw parameters,
contexts and handler states whose handler fails with the same error map to
the same transport error. -/
theorem claim_c8_witness :
    okDecode 4 = .ok 4 ∧
    failingHandler testCtx 4 0 = (.error 3, 0) ∧
    okDecode 11 = .ok 11 ∧
    failingHandler (RpcContext.new 0 0 0) 11 5 = (.error 3, 5) ∧
    (method_callback okDecode (fun e : Nat => e * 10) failingHandler 4 testCtx
        ⟨0, []⟩).1
      = .error (.fromRpc 30) ∧
    (method_callback okDecode (fun e : Nat => e * 10) failingHandler 11
        (RpcContext.new 0 0 0) ⟨5, []⟩).1
      = (method_callback okDecode (fun e : Nat => e * 10) failingHandler 4
          testCtx ⟨0, []⟩).1 := by
  have h := claim_c8_error_mapping_deterministic okDecode
    (fun e : Nat => e * 10) failingHandler 4 11 testCtx (RpcContext.new 0 0 0)
    ⟨0, []⟩ ⟨5, []⟩ 4 11 3 0 5 rfl rfl rfl rfl
  exact ⟨rfl, rfl, rfl, rfl, h.1, h.2⟩

/-- Claim C6: the no-input registrar variant behaves like `register_method`
except for parameter decoding: (i) when decoding succeeds, the with-input
callback on a handler that ignores its input produces exactly the no-input
callback's result; (ii) the no-input callback ignores the raw parameters
entirely; (iii) it has no decode-failure path (it never produces the
transport parse error); (iv) the registration outcome and metrics effect of
the two registrars agree. -/
theorem claim_c6_no_input_variant_refines
    (parseInput : P → Except String Input) (intoRpc : E → R)
    (handler : RpcContext S PD SS C → σ → Except E Output × σ) :
    (∀ (params : P) (input : Input) (context : RpcContext S PD SS C)
      (w : CallWorld σ), parseInput params = .ok input →
      method_callback parseInput intoRpc (fun c _ => handler c) params
          context w
        = no_input_callback intoRpc handler params context w) ∧
    (∀ (p1 p2 : P) (context : RpcContext S PD SS C) (w : CallWorld σ),
      no_input_callback intoRpc handler p1 context w
        = no_input_callback intoRpc handler p2 context w) ∧
    (∀ (params : P) (context : RpcContext S PD SS C) (w : CallWorld σ),
      isParseError (no_input_callback intoRpc handler params context w).1
        = false) ∧
    (∀ (module : RpcModule (Callback P R Output σ S PD SS C))
      (metrics : List MetricsOp) (name : String),
      (register_method_with_no_input intoRpc module metrics name handler).1
        = (register_method parseInput intoRpc module metrics name
            (fun c _ => handler c)).1 ∧
      (register_method_with_no_input intoRpc module metrics name
          handler).2.2
        = (register_method parseInput intoRpc module metrics name
            (fun c _ => handler c)).2.2) := by
  refine ⟨?_, ?_, ?_, ?_⟩
  · intro params input context w hparse
    simp [method_callback, no_input_callback, hparse]
  · intro p1 p2 context w
    rfl
  · intro params context w
    unfold no_input_callback
    split <;> rfl
  · intro module metrics name
    by_cases h : (module.any fun p => p.1 == name) = true
    · rw [register_no_input_eq_dup intoRpc module metrics name handler h,
        register_method_eq_dup parseInput intoRpc module metrics name
          (fun c _ => handler c) h]
      exact ⟨rfl, rfl⟩
    · rw [register_no_input_eq_fresh intoRpc module metrics name handler
          (Bool.eq_false_iff.mpr h),
        register_method_eq_fresh parseInput intoRpc module metrics name
          (fun c _ => handler c) (Bool.eq_false_iff.mpr h)]
      exact ⟨rfl, rfl⟩

/-- Witness for C6: a concrete successful decode on which the with-input
callback over an input-ignoring handler agrees with the no-input
callback. -/
theorem claim_c6_witness :
    okDecode 5 = .ok 5 ∧
    method_callback okDecode (fun e : Nat => e)
        (fun c _ => countingNoInput c) 5 testCtx ⟨0, []⟩
      = no_input_callback (fun e : Nat => e) countingNoInput 5 testCtx
          ⟨0, []⟩ :=
  ⟨rfl,
    (claim_c6_no_input_variant_refines okDecode (fun e : Nat => e)
        countingNoInput).1 5 5 testCtx ⟨0, []⟩ rfl⟩

/-- Claim C7: on a routing table where `name` is unbound, the first
registration succeeds; a second registration under the same name returns
the already-registered error, leaves the table unchanged, and the first
binding is still the one reachable by lookup (hence callable). -/
theorem claim_c7_duplicate_name_second_registration_fails
    (parse1 parse2 : P → Except String Input) (into1 into2 : E → R)
    (module : RpcModule (Callback P R Output σ S PD SS C))
    (metrics1 metrics2 : List MetricsOp) (name : String)
    (m1 m2 : RpcContext S PD SS C → Input → σ → Except E Output × σ)
    (hfresh : RpcModule.lookup module name = none) :
    (register_method parse1 into1 module metrics1 name m1).1 = .ok () ∧
    RpcModule.lookup
        (register_method parse1 into1 module metrics1 name m1).2.1 name
      = some (method_callback parse1 into1 m1) ∧
    (register_method parse2 into2
        (register_method parse1 into1 module metrics1 name m1).2.1
        metrics2 name m2).1
      = .error (.alreadyRegistered name) ∧
    (register_method parse2 into2
        (register_method parse1 into1 module metrics1 name m1).2.1
        metrics2 name m2).2.1
      = (register_method parse1 into1 module metrics1 name m1).2.1 := by
  have hany := RpcModule.lookup_none_any_false module name hfresh
  rw [register_method_eq_fresh parse1 into1 module metrics1 name m1 hany]
  have hdup : (((module
        ++ [(name, method_callback parse1 into1 m1)]).any
        fun p => p.1 == name) = true) :=
    RpcModule.any_append_same module name _
  rw [register_method_eq_dup parse2 into2 _ metrics2 name m2 hdup]
  exact ⟨rfl, RpcModule.lookup_append_same module name _ hfresh, rfl, rfl⟩

/-- Witness for C7: registering twice under the same name on the empty
routing table. -/
theorem claim_c7_witness :
    RpcModule.lookup ([] : RpcModule (Callback Nat Nat Nat Nat Nat Nat Nat Nat))
        "starknet_call" = none ∧
    (register_method okDecode (fun e : Nat => e)
        ([] : RpcModule (Callback Nat Nat Nat Nat Nat Nat Nat Nat)) []
        "starknet_call" countingHandler).1 = .ok () ∧
    (register_method okDecode (fun e : Nat => e)
        (register_method okDecode (fun e : Nat => e)
          ([] : RpcModule (Callback Nat Nat Nat Nat Nat Nat Nat Nat)) []
          "starknet_call" countingHandler).2.1
        [] "starknet_call" failingHandler).1
      = .error (.alreadyRegistered "starknet_call") :=
  have h := claim_c7_duplicate_name_second_registration_fails okDecode
    okDecode (fun e : Nat => e) (fun e : Nat => e)
    ([] : RpcModule (Callback Nat Nat Nat Nat Nat Nat Nat Nat)) [] []
    "starknet_call" countingHandler failingHandler rfl
  ⟨rfl, h.1, h.2.2.1⟩

/-- Claim C9: registration is not atomic with its metrics side effect: in
both registrar variants, when the routing-table registration fails on a
duplicate name, the returned metrics registry nevertheless already contains
the freshly appended counter registration (the side effect is not rolled
back). -/
theorem claim_c9_metrics_effect_not_rolled_back
    (parseInput : P → Except String Input) (intoRpc : E → R)
    (module module2 : RpcModule (Callback P R Output σ S PD SS C))
    (metrics metrics2 : List MetricsOp) (name name2 : String)
    (method : RpcContext S PD SS C → Input → σ → Except E Output × σ)
    (method2 : RpcContext S PD SS C → σ → Except E Output × σ)
    (hdup : (module.any fun p => p.1 == name) = true)
    (hdup2 : (module2.any fun p => p.1 == name2) = true) :
    (register_method parseInput intoRpc module metrics name method).1
      = .error (.alreadyRegistered name) ∧
    (register_method parseInput intoRpc module metrics name method).2.2
      = metrics
        ++ [MetricsOp.registerCounter "rpc_method_calls_total" name] ∧
    (register_method_with_no_input intoRpc module2 metrics2 name2
        method2).1
      = .error (.alreadyRegistered name2) ∧
    (register_method_with_no_input intoRpc module2 metrics2 name2
        method2).2.2
      = metrics2
        ++ [MetricsOp.registerCounter "rpc_method_calls_total" name2] := by
  rw [register_method_eq_dup parseInput intoRpc module metrics name method
    hdup,
    register_no_input_eq_dup intoRpc module2 metrics2 name2 method2 hdup2]
  exact ⟨rfl, rfl, rfl, rfl⟩

/-- Witness for C9: failing duplicate registrations against a one-entry
routing table still extend the metrics registry. -/
theorem claim_c9_witness :
    (testModule.any fun p => p.1 == "starknet_call") = true ∧
    (register_method okDecode (fun e : Nat => e) testModule []
        "starknet_call" countingHandler).1
      = .error (.alreadyRegistered "starknet_call") ∧
    (register_method okDecode (fun e : Nat => e) testModule []
        "starknet_call" countingHandler).2.2
      = [MetricsOp.registerCounter "rpc_method_calls_total"
          "starknet_call"] ∧
    (register_method_with_no_input (fun e : Nat => e) testModule []
        "starknet_call" countingNoInput).2.2
      = [MetricsOp.registerCounter "rpc_method_calls_total"
          "starknet_call"] :=
  have h := claim_c9_metrics_effect_not_rolled_back okDecode
    (fun e : Nat => e) testModule testModule [] [] "starknet_call"
    "starknet_call" countingHandler countingNoInput (by decide) (by decide)
  ⟨by decide, h.1, h.2.1, h.2.2.2⟩

/-! ## Helper lemmas about the polling sync producer -/

/-- Recognizes the `Ok(())` success outcome. -/
def SyncOutcome.isOk : SyncOutcome → Bool
  | .ok => true
  | _ => false

/-- Test upstream client: fails on calls 1 and 2, succeeds with `u` from
call 3 on. -/
def failTwiceClient (u : Nat) : Nat → Except Unit Nat := fun k =>
  if k < 2 then .error () else .ok u

theorem syncLoop_outcome_or (client : Nat → Except ε υ) (sc : Nat → Bool)
    (pi : Nat) : ∀ (fuel q snd : Nat),
    (syncLoop client sc pi fuel q snd).2 = .running ∨
    (syncLoop client sc pi fuel q snd).2 = .sendError := by
  intro fuel
  induction fuel with
  | zero => intro q snd; left; rfl
  | succ f ih =>
    intro q snd
    unfold syncLoop
    cases hc : client q with
    | ok st =>
      by_cases hs : sc snd = true
      · simp [hs]
      · simp [Bool.eq_false_iff.mpr hs]
        exact ih (q + 1) (snd + 1)
    | error e =>
      simp
      exact ih (q + 1) snd

theorem syncLoop_open_channel_running (client : Nat → Except ε υ)
    (sc : Nat → Bool) (hsc : ∀ n, sc n = false) (pi : Nat) :
    ∀ (fuel q snd : Nat), (syncLoop client sc pi fuel q snd).2 = .running := by
  intro fuel
  induction fuel with
  | zero => intro q snd; rfl
  | succ f ih =>
    intro q snd
    unfold syncLoop
    cases hc : client q with
    | ok st =>
      simp [hsc snd]
      exact ih (q + 1) (snd + 1)
    | error e =>
      simp
      exact ih (q + 1) snd

theorem syncLoop_sendError_stable (client : Nat → Except ε υ)
    (sc : Nat → Bool) (pi : Nat) :
    ∀ (fuel q snd : Nat),
    (syncLoop client sc pi fuel q snd).2 = .sendError →
    ∀ (k : Nat), syncLoop client sc pi (fuel + k) q snd
      = syncLoop client sc pi fuel q snd := by
  intro fuel
  induction fuel with
  | zero =>
    intro q snd h
    exact absurd h (by intro hh; cases hh)
  | succ f ih =>
    intro q snd h k
    have hadd : f + 1 + k = (f + k) + 1 := by omega
    rw [hadd]
    unfold syncLoop at h ⊢
    cases hc : client q with
    | ok st =>
      rw [hc] at h
      by_cases hs : sc snd = true
      · simp [hs]
      · rw [Bool.eq_false_iff.mpr hs] at h
        simp at h
        simp [Bool.eq_false_iff.mpr hs]
        rw [ih (q + 1) (snd + 1) h k]
        exact ⟨rfl, rfl⟩
    | error e =>
      rw [hc] at h
      simp at h
      simp
      rw [ih (q + 1) snd h k]
      exact ⟨rfl, rfl⟩

/-- Claim C2: the producer sleeps the start delay once and then runs the
loop; an iteration whose upstream query fails logs the error, forwards
nothing and continues with the same poll interval; and in the concrete
scenario (client failing on calls 1-2 and succeeding on call 3, start
delay 0, poll interval `T`, open channel) exactly one value is forwarded,
none within the first two iterations, at elapsed time `3 * T`, with the
loop still running afterward. -/
theorem claim_c2_polling_producer_behavior :
    (∀ (client : Nat → Except ε υ) (sc : Nat → Bool) (sd pi fuel : Nat),
      sync client sc sd pi fuel
        = (.sleep sd :: (syncLoop client sc pi fuel 0 0).1,
           (syncLoop client sc pi fuel 0 0).2)) ∧
    (∀ (client : Nat → Except ε υ) (sc : Nat → Bool)
      (pi fuel q snd : Nat) (e : ε), client q = .error e →
      syncLoop client sc pi (fuel + 1) q snd
        = (.sleep pi :: .query q (.error e) :: .logError q ::
            (syncLoop client sc pi fuel (q + 1) snd).1,
           (syncLoop client sc pi fuel (q + 1) snd).2)) ∧
    (∀ (T u : Nat),
      sentValues (sync (failTwiceClient u) (fun _ => false) 0 T 3).1
        = [u] ∧
      sentValues (sync (failTwiceClient u) (fun _ => false) 0 T 2).1
        = [] ∧
      sleepTimeBefore (sync (failTwiceClient u) (fun _ => false) 0 T 3).1
        = 3 * T ∧
      (sync (failTwiceClient u) (fun _ => false) 0 T 3).2 = .running) := by
  refine ⟨fun client sc sd pi fuel => rfl, ?_, ?_⟩
  · intro client sc pi fuel q snd e hc
    simp [syncLoop, hc]
  · intro T u
    refine ⟨rfl, rfl, ?_, rfl⟩
    show 0 + (T + (T + (T + 0))) = 3 * T
    omega

/-- Witness for C2: the log-and-continue iteration at a concrete failing
query. -/
theorem claim_c2_witness :
    failTwiceClient 9 0 = .error () ∧
    syncLoop (failTwiceClient 9) (fun _ => false) 5 (0 + 1) 0 0
      = (.sleep 5 :: .query 0 (.error ()) :: .logError 0 ::
          (syncLoop (failTwiceClient 9) (fun _ => false) 5 0 1 0).1,
         (syncLoop (failTwiceClient 9) (fun _ => false) 5 0 1 0).2) :=
  ⟨rfl,
    claim_c2_polling_producer_behavior.2.1 (failTwiceClient 9)
      (fun _ => false) 5 0 0 0 () rfl⟩

/-- Claim C3: a run of the producer either is still looping or has
terminated through a channel-send failure (the only exit is the propagated
send error); while the channel stays open, upstream failures never
terminate the loop; and once a run has terminated with the send error,
granting it any additional fuel changes nothing — in particular no further
upstream queries are performed. -/
theorem claim_c3_loop_ends_only_on_send_failure :
    (∀ (client : Nat → Except ε υ) (sc : Nat → Bool) (sd pi fuel : Nat),
      (sync client sc sd pi fuel).2 = .running ∨
      (sync client sc sd pi fuel).2 = .sendError) ∧
    (∀ (client : Nat → Except ε υ) (sc : Nat → Bool),
      (∀ n, sc n = false) → ∀ (sd pi fuel : Nat),
      (sync client sc sd pi fuel).2 = .running) ∧
    (∀ (client : Nat → Except ε υ) (sc : Nat → Bool) (sd pi fuel : Nat),
      (sync client sc sd pi fuel).2 = .sendError →
      ∀ (k : Nat), sync client sc sd pi (fuel + k)
        = sync client sc sd pi fuel) := by
  refine ⟨?_, ?_, ?_⟩
  · intro client sc sd pi fuel
    exact syncLoop_outcome_or client sc pi fuel 0 0
  · intro client sc hsc sd pi fuel
    exact syncLoop_open_channel_running client sc hsc pi fuel 0 0
  · intro client sc sd pi fuel h k
    unfold sync
    rw [syncLoop_sendError_stable client sc pi fuel 0 0 h k]

/-- Witness for C3: an always-failing upstream never ends the loop while
the channel is open; a closed channel ends a concrete run at the first
send, and extra fuel changes nothing. -/
theorem claim_c3_witness :
    (sync (fun _ => Except.error ()) (fun _ => false) 0 1 4 :
        List (SyncEvent Unit Nat) × SyncOutcome).2 = .running ∧
    (sync (fun k => Except.ok k) (fun _ => true) 0 1 1 :
        List (SyncEvent Unit Nat) × SyncOutcome).2 = .sendError ∧
    (sync (fun k => Except.ok k) (fun _ => true) 0 1 (1 + 2) :
        List (SyncEvent Unit Nat) × SyncOutcome)
      = sync (fun k => Except.ok k) (fun _ => true) 0 1 1 :=
  ⟨claim_c3_loop_ends_only_on_send_failure.2.1
      (fun _ => Except.error ()) (fun _ => false) (fun _ => rfl) 0 1 4,
    rfl,
    claim_c3_loop_ends_only_on_send_failure.2.2
      (fun k => Except.ok k) (fun _ => true) 0 1 1 rfl 2⟩

/-- Claim C10: `sync` never produces the `Ok(())` success outcome of its
declared result type: every run is either still looping or has ended with
the propagated channel-send error. -/
theorem claim_c10_sync_never_returns_ok :
    ∀ (client : Nat → Except ε υ) (sc : Nat → Bool) (sd pi fuel : Nat),
      ((sync client sc sd pi fuel).2).isOk = false := by
  intro client sc sd pi fuel
  rcases syncLoop_outcome_or client sc pi fuel 0 0 with h | h <;>
    simp [sync, h, SyncOutcome.isOk]

end Pathfinder
